import Mathlib

/-!
Verification of the toolbar-aware grid layout core described by the spec of
this repository, together with the sample-data API surface pinned by the
unit test. The example script `examples/models/toolbars2.py` and the test
file `tests/unit/bokeh/sampledata/test_olympics2014.py` are embedded below;
the layout constructor itself (`gridplot`, abstracted by the spec as
`GridToolbarLayout.build`) is library code not present among the supplied
sources, so it is modelled from the spec's contract.
-/

set_option autoImplicit false

namespace Toolbars2

/-- The enumerated toolbar position values {above, below, left, right}
from the spec's data model (§3, ToolbarPosition). -/
inductive ToolbarPosition where
  | above
  | below
  | left
  | right
deriving DecidableEq, Repr

/-- The string naming each enumerated position, as the example script
passes them ("above", "below", "left", "right"). -/
def positionName : ToolbarPosition → String
  | .above => "above"
  | .below => "below"
  | .left => "left"
  | .right => "right"

/-- Modelled from the spec: positions arrive as dynamic named parameters
(§9); a string outside the four enumerated names is an invalid position. -/
def parsePosition (s : String) : Option ToolbarPosition :=
  if s = "above" then some .above
  else if s = "below" then some .below
  else if s = "left" then some .left
  else if s = "right" then some .right
  else none

/-- The validation errors of the spec (§4.1, §7). -/
inductive BuildError where
  | InvalidGridShape
  | InvalidDimensions
  | InvalidPosition
deriving DecidableEq, Repr

/-- The result type of the spec's data model (§3): a CompositeLayout pairs
a grid (rows of columns of panels) with a toolbar position; immutable once
constructed. The panel type is opaque to the core, hence a parameter. -/
structure CompositeLayout (α : Type) where
  grid : List (List α)
  position : ToolbarPosition
deriving DecidableEq, Repr

/-- A grid is well-shaped when it is non-empty and every row has the same
column count as the first row (spec §3 Grid invariant, §4.1 inputs). -/
def rectangular {α : Type} (g : List (List α)) : Bool :=
  match g with
  | [] => false
  | r :: rs => rs.all (fun s => s.length == r.length)

/-- Modelled from the spec: `GridToolbarLayout.build` (§4.1). The layout
constructor the example's `mkgrid` delegates to (`bokeh.layouts.gridplot`)
is not among the supplied sources; the spec abstracts it as a pure
validating constructor. Validation happens synchronously in the order the
spec lists the error conditions: grid shape, then dimensions, then
position; on success the grid structure is recorded unchanged together
with the parsed toolbar position. -/
def build {α : Type} (panels : List (List α)) (position : String)
    (panelWidth panelHeight : Int) : Except BuildError (CompositeLayout α) :=
  if rectangular panels = true then
    if panelWidth ≤ 0 ∨ panelHeight ≤ 0 then
      .error .InvalidDimensions
    else
      match parsePosition position with
      | some p => .ok ⟨panels, p⟩
      | none => .error .InvalidPosition
  else
    .error .InvalidGridShape

/-- The tool list of the example script (`TOOLS` in toolbars2.py). -/
def TOOLS : String :=
  "hover,crosshair,pan,wheel_zoom,zoom_in,zoom_out,box_zoom,undo,redo,reset,tap,save,box_select,poly_select,lasso_select"

/-- A panel: an opaque rectangular visual unit with positive width and
height (spec §3); the example's figures also carry the tool list and the
axis locations, kept here as opaque data the core never inspects. -/
structure Panel where
  width : Int
  height : Int
  tools : String
  xAxisLocation : String
  yAxisLocation : String
deriving DecidableEq, Repr

/-- The example's `mkplot` (toolbars2.py lines 22-25): builds a 300×300
figure with the shared tool list and default axis locations; the scatter
contents are owned by the plotting collaborator and not modelled. The
script always calls it with the default axis arguments. -/
def mkplot : Panel :=
  ⟨300, 300, TOOLS, "below", "left"⟩

/-- The example's `mkgrid` (toolbars2.py lines 27-28): delegates to the
layout constructor with width 300, height 300 and the given toolbar
location. -/
def mkgrid (plots : List (List Panel)) (location : String) :
    Except BuildError (CompositeLayout Panel) :=
  build plots location 300 300

/-- toolbars2.py line 30: 2×2 grid with the toolbar above. -/
def l_al : Except BuildError (CompositeLayout Panel) :=
  mkgrid [[mkplot, mkplot], [mkplot, mkplot]] "above"

/-- toolbars2.py line 31: 2×2 grid with the toolbar below. -/
def l_ar : Except BuildError (CompositeLayout Panel) :=
  mkgrid [[mkplot, mkplot], [mkplot, mkplot]] "below"

/-- toolbars2.py line 32: 2×2 grid with the toolbar on the left. -/
def l_bl : Except BuildError (CompositeLayout Panel) :=
  mkgrid [[mkplot, mkplot], [mkplot, mkplot]] "left"

/-- toolbars2.py line 33: 2×2 grid with the toolbar on the right. -/
def l_br : Except BuildError (CompositeLayout Panel) :=
  mkgrid [[mkplot, mkplot], [mkplot, mkplot]] "right"

/-- Document-level layout nodes of the example script: grids composed by
`row` and `column` (bokeh.layouts.row / bokeh.layouts.column, modelled as
plain list containers since the script only nests them). -/
inductive DocLayout where
  | grid : CompositeLayout Panel → DocLayout
  | row : List DocLayout → DocLayout
  | column : List DocLayout → DocLayout
deriving Repr

/-- The example's final `layout` (toolbars2.py line 35):
`column(row(l_al, l_ar), row(l_bl, l_br))`. Each grid construction must
have succeeded for the layout to exist. -/
def layout : Except BuildError DocLayout := do
  let a ← l_al
  let b ← l_ar
  let c ← l_bl
  let d ← l_br
  pure (.column [.row [.grid a, .grid b], .row [.grid c, .grid d]])

end Toolbars2

namespace Olympics2014

/-- Modelled from the spec: the module `bokeh.sampledata.olympics2014` is
not among the supplied sources (only its unit test is). The spec describes
it as a static data dictionary loaded from a package resource whose public
API surface is verified by the test; the model records the module's
`__all__` names and the key list of its `data` dictionary, with the
concrete values pinned by the assertions of
tests/unit/bokeh/sampledata/test_olympics2014.py. -/
structure SampledataModule where
  allNames : List String
  dataKeys : List String
deriving DecidableEq, Repr

/-- The modelled `bokeh.sampledata.olympics2014` module: public surface
is the single name `data`; the dictionary's keys are count, data, object. -/
def olympics2014 : SampledataModule :=
  ⟨["data"], ["count", "data", "object"]⟩

/-- The expected public names from the test file (`ALL = ('data',)`). -/
def ALL : List String := ["data"]

/-- Modelled from the spec: `tests.support.util.api.verify_all` (not among
the supplied sources) checks that a module's public API surface consists of
exactly the expected names. -/
def verify_all (m : SampledataModule) (expected : List String) : Bool :=
  m.allNames == expected

/-- The `test_data` assertion from the test file: the key set of the
`data` dictionary is exactly count, data, object (order-insensitive set
comparison, as the test compares Python sets). -/
def test_data (m : SampledataModule) : Bool :=
  m.dataKeys.all (fun k => ["count", "data", "object"].contains k) &&
  (["count", "data", "object"] : List String).all (fun k => m.dataKeys.contains k)

end Olympics2014

namespace Toolbars2

theorem rectangular_cons_iff {α : Type} (r : List α) (rs : List (List α)) :
    rectangular (r :: rs) = true ↔ ∀ s ∈ rs, s.length = r.length := by
  simp [rectangular]

theorem rectangular_of_equal {α : Type} (g : List (List α)) (hne : g ≠ [])
    (heq : ∀ r1 ∈ g, ∀ r2 ∈ g, r1.length = r2.length) : rectangular g = true := by
  cases g with
  | nil => exact absurd rfl hne
  | cons r rs =>
    rw [rectangular_cons_iff]
    intro s hs
    exact heq s (List.mem_cons_of_mem r hs) r (List.mem_cons_self r rs)

theorem equal_of_rectangular {α : Type} (g : List (List α))
    (hr : rectangular g = true) :
    ∀ r1 ∈ g, ∀ r2 ∈ g, r1.length = r2.length := by
  cases g with
  | nil => simp [rectangular] at hr
  | cons r rs =>
    rw [rectangular_cons_iff] at hr
    intro r1 h1 r2 h2
    have e1 : r1.length = r.length := by
      rcases List.mem_cons.mp h1 with h1 | h1
      · rw [h1]
      · exact hr r1 h1
    have e2 : r2.length = r.length := by
      rcases List.mem_cons.mp h2 with h2 | h2
      · rw [h2]
      · exact hr r2 h2
    rw [e1, e2]

theorem parsePosition_positionName (p : ToolbarPosition) :
    parsePosition (positionName p) = some p := by
  cases p <;> rfl

theorem rectangular_map {α β : Type} (f : α → β) (g : List (List α)) :
    rectangular (g.map (List.map f)) = rectangular g := by
  cases g with
  | nil => rfl
  | cons r rs =>
    simp only [List.map_cons, rectangular, List.length_map]
    induction rs with
    | nil => rfl
    | cons s ss ih => simp [List.all_cons, List.length_map, ih]

/-- C1: for every non-empty grid all of whose rows have equal length, every
enumerated toolbar position, and positive panel width and height, `build`
succeeds and returns a CompositeLayout whose grid equals the input grid and
whose stored position is the input position. -/
theorem build_ok {α : Type} (g : List (List α)) (p : ToolbarPosition)
    (w h : Int) (hne : g ≠ [])
    (hrect : ∀ r1 ∈ g, ∀ r2 ∈ g, r1.length = r2.length)
    (hw : 0 < w) (hh : 0 < h) :
    build g (positionName p) w h = Except.ok ⟨g, p⟩ := by
  have hr := rectangular_of_equal g hne hrect
  have hd : ¬(w ≤ 0 ∨ h ≤ 0) := by omega
  simp [build, hr, hd, parsePosition_positionName]

/-- Witness for C1: a concrete 2×2 grid of naturals, position above,
dimensions 300×300. -/
theorem build_ok_witness :
    ([[1, 2], [3, 4]] : List (List Nat)) ≠ [] ∧
    (∀ r1 ∈ ([[1, 2], [3, 4]] : List (List Nat)),
      ∀ r2 ∈ ([[1, 2], [3, 4]] : List (List Nat)), r1.length = r2.length) ∧
    (0 : Int) < 300 ∧
    build ([[1, 2], [3, 4]] : List (List Nat))
        (positionName ToolbarPosition.above) 300 300
      = Except.ok ⟨[[1, 2], [3, 4]], ToolbarPosition.above⟩ :=
  ⟨by decide, by decide, by decide,
    build_ok [[1, 2], [3, 4]] ToolbarPosition.above 300 300
      (by decide) (by decide) (by decide) (by decide)⟩

/-- C2: whenever two rows of the grid have different lengths, `build` fails
with InvalidGridShape, whatever the position and dimensions. -/
theorem build_ragged {α : Type} (g : List (List α)) (pos : String) (w h : Int)
    (r1 r2 : List α) (h1 : r1 ∈ g) (h2 : r2 ∈ g)
    (hne : r1.length ≠ r2.length) :
    build g pos w h = Except.error BuildError.InvalidGridShape := by
  have hr : rectangular g = false := by
    cases hb : rectangular g with
    | false => rfl
    | true => exact absurd (equal_of_rectangular g hb r1 h1 r2 h2) hne
  simp [build, hr]

/-- Witness for C2: rows of lengths 1 and 2. -/
theorem build_ragged_witness :
    ([0] : List Nat) ∈ ([[0], [0, 0]] : List (List Nat)) ∧
    ([0, 0] : List Nat) ∈ ([[0], [0, 0]] : List (List Nat)) ∧
    ([0] : List Nat).length ≠ ([0, 0] : List Nat).length ∧
    build ([[0], [0, 0]] : List (List Nat)) "above" 300 300
      = Except.error BuildError.InvalidGridShape :=
  ⟨by decide, by decide, by decide,
    build_ragged [[0], [0, 0]] "above" 300 300 [0] [0, 0]
      (by decide) (by decide) (by decide)⟩

/-- C3 counterexample: with a non-positive width but a ragged (or empty)
grid, `build` reports InvalidGridShape, not InvalidDimensions, because the
shape check comes first. -/
theorem build_dims_counterexample :
    build ([[0], [0, 0]] : List (List Nat)) "above" 0 300
      = Except.error BuildError.InvalidGridShape ∧
    build ([] : List (List Nat)) "above" 0 300
      = Except.error BuildError.InvalidGridShape ∧
    BuildError.InvalidGridShape ≠ BuildError.InvalidDimensions :=
  ⟨rfl, rfl, by decide⟩

/-- C3 amended: for a non-empty grid with all rows of equal length, a
non-positive panel width or height makes `build` fail with
InvalidDimensions. -/
theorem build_dims {α : Type} (g : List (List α)) (pos : String) (w h : Int)
    (hne : g ≠ []) (hrect : ∀ r1 ∈ g, ∀ r2 ∈ g, r1.length = r2.length)
    (hd : w ≤ 0 ∨ h ≤ 0) :
    build g pos w h = Except.error BuildError.InvalidDimensions := by
  have hr := rectangular_of_equal g hne hrect
  simp [build, hr, hd]

/-- Witness for the amended C3: a well-shaped 1×1 grid with width 0. -/
theorem build_dims_witness :
    ([[5]] : List (List Nat)) ≠ [] ∧
    ((0 : Int) ≤ 0 ∨ (300 : Int) ≤ 0) ∧
    build ([[5]] : List (List Nat)) "above" 0 300
      = Except.error BuildError.InvalidDimensions :=
  ⟨by decide, by decide,
    build_dims [[5]] "above" 0 300 (by decide) (by decide) (by decide)⟩

/-- C4 counterexample: with the unrecognised position "top", a ragged grid
still reports InvalidGridShape and a well-shaped grid with a non-positive
width still reports InvalidDimensions, because those checks come first. -/
theorem build_position_counterexample :
    parsePosition "top" = none ∧
    build ([[0], [0, 0]] : List (List Nat)) "top" 300 300
      = Except.error BuildError.InvalidGridShape ∧
    build ([[0, 0], [0, 0]] : List (List Nat)) "top" 0 300
      = Except.error BuildError.InvalidDimensions ∧
    BuildError.InvalidGridShape ≠ BuildError.InvalidPosition ∧
    BuildError.InvalidDimensions ≠ BuildError.InvalidPosition :=
  ⟨rfl, rfl, rfl, by decide, by decide⟩

/-- C4 amended: for a non-empty grid with all rows of equal length and
positive dimensions, a position string outside the four enumerated names
makes `build` fail with InvalidPosition. -/
theorem build_position {α : Type} (g : List (List α)) (pos : String)
    (w h : Int) (hne : g ≠ [])
    (hrect : ∀ r1 ∈ g, ∀ r2 ∈ g, r1.length = r2.length)
    (hw : 0 < w) (hh : 0 < h)
    (hp : pos ≠ "above" ∧ pos ≠ "below" ∧ pos ≠ "left" ∧ pos ≠ "right") :
    build g pos w h = Except.error BuildError.InvalidPosition := by
  have hr := rectangular_of_equal g hne hrect
  have hd : ¬(w ≤ 0 ∨ h ≤ 0) := by omega
  have hparse : parsePosition pos = none := by
    simp [parsePosition, hp.1, hp.2.1, hp.2.2.1, hp.2.2.2]
  simp [build, hr, hd, hparse]

/-- Witness for the amended C4: a well-shaped 1×1 grid, positive
dimensions, position "top". -/
theorem build_position_witness :
    ([[5]] : List (List Nat)) ≠ [] ∧
    (0 : Int) < 300 ∧
    ("top" ≠ "above" ∧ "top" ≠ "below" ∧ "top" ≠ "left" ∧ "top" ≠ "right") ∧
    build ([[5]] : List (List Nat)) "top" 300 300
      = Except.error BuildError.InvalidPosition :=
  ⟨by decide, by decide, by decide,
    build_position [[5]] "top" 300 300 (by decide) (by decide)
      (by decide) (by decide) (by decide)⟩

/-- C5: calling `build` twice with an identical input tuple yields
structurally equal results. -/
theorem build_idempotent {α : Type} (g : List (List α)) (pos : String)
    (w h : Int) :
    build g pos w h = build g pos w h := rfl

/-- C6: `build` never inspects or alters panel contents: it commutes with
any transformation applied pointwise to the panels, and on success the
output grid is exactly the input grid. -/
theorem build_frame {α β : Type} (f : α → β) (g : List (List α))
    (pos : String) (w h : Int) :
    build (g.map (List.map f)) pos w h
      = Except.map
          (fun cl => ⟨cl.grid.map (List.map f), cl.position⟩)
          (build g pos w h)
    ∧ ∀ cl : CompositeLayout α, build g pos w h = Except.ok cl →
        cl.grid = g := by
  constructor
  · unfold build
    rw [rectangular_map]
    by_cases hr : rectangular g = true
    · by_cases hd : w ≤ 0 ∨ h ≤ 0
      · simp [hr, hd, Except.map]
      · cases hp : parsePosition pos <;> simp [hr, hd, hp, Except.map]
    · simp [hr, Except.map]
  · intro cl hcl
    unfold build at hcl
    by_cases hr : rectangular g = true
    · rw [if_pos hr] at hcl
      by_cases hd : w ≤ 0 ∨ h ≤ 0
      · rw [if_pos hd] at hcl
        exact absurd hcl (by simp)
      · rw [if_neg hd] at hcl
        cases hp : parsePosition pos <;> rw [hp] at hcl
        · exact absurd hcl (by simp)
        · have he : (⟨g, _⟩ : CompositeLayout α) = cl :=
            Except.ok.inj hcl
          rw [← he]
    · rw [if_neg hr] at hcl
      exact absurd hcl (by simp)

/-- Witness for C6: mapping successor over a concrete 2×2 grid of
naturals commutes with `build`, and the successful result keeps the grid. -/
theorem build_frame_witness :
    build (([[1, 2], [3, 4]] : List (List Nat)).map (List.map Nat.succ))
        "above" 300 300
      = Except.map
          (fun cl => ⟨cl.grid.map (List.map Nat.succ), cl.position⟩)
          (build ([[1, 2], [3, 4]] : List (List Nat)) "above" 300 300) ∧
    (⟨[[1, 2], [3, 4]], ToolbarPosition.above⟩ : CompositeLayout Nat).grid
      = [[1, 2], [3, 4]] :=
  ⟨(build_frame Nat.succ [[1, 2], [3, 4]] "above" 300 300).1,
    (build_frame Nat.succ [[1, 2], [3, 4]] "above" 300 300).2
      ⟨[[1, 2], [3, 4]], ToolbarPosition.above⟩ rfl⟩

/-- C7: `build` is deterministic: two calls with equal inputs return equal
results; in this embedding it is a total function of its arguments alone,
with no shared state, I/O or blocking. -/
theorem build_deterministic {α : Type} (g1 g2 : List (List α))
    (p1 p2 : String) (w1 w2 h1 h2 : Int)
    (hg : g1 = g2) (hp : p1 = p2) (hw : w1 = w2) (hh : h1 = h2) :
    build g1 p1 w1 h1 = build g2 p2 w2 h2 := by
  rw [hg, hp, hw, hh]

/-- Witness for C7 at a concrete input. -/
theorem build_deterministic_witness :
    build ([[7]] : List (List Nat)) "left" 300 300
      = build ([[7]] : List (List Nat)) "left" 300 300 :=
  build_deterministic [[7]] [[7]] "left" "left" 300 300 300 300
    rfl rfl rfl rfl

/-- C8: the script's 2×2 grid of four 300×300 panels with position "above"
(line 30, `l_al`) succeeds and yields a CompositeLayout with 2 rows of 2
columns and stored position above. -/
theorem scenario_2x2_above :
    ∃ cl : CompositeLayout Panel,
      mkgrid [[mkplot, mkplot], [mkplot, mkplot]] "above" = Except.ok cl ∧
      cl.grid.length = 2 ∧
      (cl.grid.all fun r => r.length == 2) = true ∧
      cl.position = ToolbarPosition.above ∧
      mkplot.width = 300 ∧ mkplot.height = 300 := by
  refine ⟨⟨[[mkplot, mkplot], [mkplot, mkplot]], .above⟩,
    rfl, rfl, rfl, rfl, rfl, rfl⟩

/-- C10: the script builds exactly four grid layouts, in source order with
positions above, below, left, right, each over a 2×2 grid of panels made
by `mkplot` (width 300, height 300), and composes them into a column of
two rows holding two grids each. -/
theorem toolbars2_layout :
    [l_al, l_ar, l_bl, l_br]
      = [Except.ok ⟨[[mkplot, mkplot], [mkplot, mkplot]], .above⟩,
         Except.ok ⟨[[mkplot, mkplot], [mkplot, mkplot]], .below⟩,
         Except.ok ⟨[[mkplot, mkplot], [mkplot, mkplot]], .left⟩,
         Except.ok ⟨[[mkplot, mkplot], [mkplot, mkplot]], .right⟩] ∧
    mkplot.width = 300 ∧ mkplot.height = 300 ∧
    layout = Except.ok (DocLayout.column
      [DocLayout.row
        [DocLayout.grid ⟨[[mkplot, mkplot], [mkplot, mkplot]], .above⟩,
         DocLayout.grid ⟨[[mkplot, mkplot], [mkplot, mkplot]], .below⟩],
       DocLayout.row
        [DocLayout.grid ⟨[[mkplot, mkplot], [mkplot, mkplot]], .left⟩,
         DocLayout.grid ⟨[[mkplot, mkplot], [mkplot, mkplot]], .right⟩]]) :=
  ⟨rfl, rfl, rfl, rfl⟩

end Toolbars2

namespace Olympics2014

/-- C9: the modelled olympics2014 sample-data module passes both test
assertions of the unit test: its public API surface is exactly the single
name data, and the key set of its data dictionary is exactly
count, data, object. -/
theorem olympics2014_api :
    verify_all olympics2014 ALL = true ∧
    test_data olympics2014 = true ∧
    olympics2014.allNames = ["data"] ∧
    olympics2014.dataKeys.toFinset
      = ({"count", "data", "object"} : Finset String) := by
  refine ⟨rfl, by decide, rfl, by decide⟩

end Olympics2014
